import Mathlib

/-!
Shallow embedding of the Sparkle Arduino LED library (Sparkle.h / Sparkle.cpp).

Modelling conventions:
* `millis()` returns `unsigned long`; on the AVR targets this library is written
  for, `unsigned long` is 32 bits, so the clock value is the real elapsed time
  modulo 2^32.  We pass the real time `t : Nat` to every operation that reads
  the clock and apply `% 2^32` at the read, exactly where the C code reads
  `millis()`.  Sums such as `lastTime + blinkOnDuration` are `unsigned long`
  arithmetic, i.e. reduced `% 2^32`.
* `digitalWrite(pin, level)` is modelled by recording the last written level in
  the `pinLevel` field (`none` before any write); `pinMode(pin, OUTPUT)` by the
  `pinIsOutput` flag.
* The Arduino pseudo-random source is injected: `random(2)` becomes a `coin :
  Bool` argument and `random(min, max)` an oracle `rng : Nat → Nat → Nat`
  applied to the same bounds the C code passes.  The Arduino contract is that
  `random(a, b)` is uniform on `[a, b)` when `a < b`; theorems that need the
  range take that contract as a hypothesis on `rng`.
* Duration fields are `unsigned short` in C; every value reachable through the
  API is < 2^16, and no claim depends on 16-bit truncation, so they are plain
  naturals here.
* The C++ constructor leaves `ledIsOn` uninitialized (it is absent from the
  constructor's initializer list), so the constructor model takes the
  indeterminate initial value as an argument.
-/

/-- `unsigned long` modulus: the millisecond clock wraps at 2^32. -/
def ULONG_MOD : Nat := 4294967296

/-- The Arduino millisecond clock: real time reduced to the 32-bit counter. -/
def millis (t : Nat) : Nat := t % ULONG_MOD

/-- Digital pin levels (the Arduino `HIGH` / `LOW` macros). -/
inductive PinLevel where
  | HIGH
  | LOW
deriving DecidableEq, Repr

/-- `enum LedColor` from Sparkle.h. -/
inductive LedColor where
  | ANY
  | IR
  | RED
  | ORANGE
  | YELLOW
  | GREEN
  | AQUA
  | BLUE
  | PURPLE
  | UV
  | WHITE
deriving DecidableEq, Repr

/-- `enum DisplayMode` from Sparkle.h (all feature flags enabled, as shipped). -/
inductive DisplayMode where
  | DISABLED
  | TIMED
  | BLINK
  | BLINK_RANDOM
  | FADE
  | MANUAL
deriving DecidableEq, Repr

/-- The `LedDef` object state, plus the observable hardware effects
(`pinLevel`, `pinIsOutput`) of its pin writes. -/
structure LedDef where
  pin : Nat
  color : LedColor
  commonCathode : Bool
  pwm : Bool
  ledIsOn : Bool
  displayMode : DisplayMode
  blinkOffDuration : Nat
  blinkOnDuration : Nat
  timerDuration : Nat
  randMinOffDuration : Nat
  randMaxOffDuration : Nat
  randMinOnDuration : Nat
  randMaxOnDuration : Nat
  randOffDuration : Nat
  randOnDuration : Nat
  lastTime : Nat
  pinLevel : Option PinLevel
  pinIsOutput : Bool
deriving DecidableEq, Repr

/-- The `LedDef` constructor.  `isOn0` is the indeterminate initial value of
the uninitialized `ledIsOn` member. -/
def mkLedDef (ledPin : Nat) (ledColor : LedColor) (ledCommonCathode : Bool)
    (pwmCapable : Bool) (isOn0 : Bool) : LedDef :=
  { pin := ledPin
    color := ledColor
    commonCathode := ledCommonCathode
    pwm := pwmCapable
    ledIsOn := isOn0
    displayMode := .DISABLED
    blinkOffDuration := 0
    blinkOnDuration := 0
    timerDuration := 0
    randMinOffDuration := 0
    randMaxOffDuration := 0
    randMinOnDuration := 0
    randMaxOnDuration := 0
    randOffDuration := 0
    randOnDuration := 0
    lastTime := 0
    pinLevel := none
    pinIsOutput := false }

namespace LedDef

/-- Private `off()`: `digitalWrite(pin, commonCathode ? LOW : HIGH); ledIsOn = false;` -/
def off (s : LedDef) : LedDef :=
  { s with pinLevel := some (if s.commonCathode then .LOW else .HIGH), ledIsOn := false }

/-- Private `on()`: `digitalWrite(pin, commonCathode ? HIGH : LOW); ledIsOn = true;` -/
def «on» (s : LedDef) : LedDef :=
  { s with pinLevel := some (if s.commonCathode then .HIGH else .LOW), ledIsOn := true }

/-- `turnOff()`: `off(); displayMode = MANUAL;` -/
def turnOff (s : LedDef) : LedDef :=
  { s.off with displayMode := .MANUAL }

/-- `turnOn()`: `on(); displayMode = MANUAL;` -/
def turnOn (s : LedDef) : LedDef :=
  { s.«on» with displayMode := .MANUAL }

/-- `initPin()`: `pinMode(pin, OUTPUT); turnOff();` -/
def initPin (s : LedDef) : LedDef :=
  { s with pinIsOutput := true }.turnOff

/-- `getColor()`. -/
def getColor (s : LedDef) : LedColor := s.color

/-- `isOn()`. -/
def isOn (s : LedDef) : Bool := s.ledIsOn

/-- `setBlink(onDuration, offDuration)`: commits both iff both are positive. -/
def setBlink (s : LedDef) (onDuration offDuration : Nat) : LedDef :=
  if onDuration > 0 ∧ offDuration > 0 then
    { s with blinkOnDuration := onDuration, blinkOffDuration := offDuration }
  else s

/-- `startBlink()` at real time `t` (the call reads `millis()`). -/
def startBlink (s : LedDef) (t : Nat) : LedDef :=
  if s.blinkOnDuration > 0 ∧ s.blinkOffDuration > 0 then
    { s.«on» with lastTime := millis t, displayMode := .BLINK }
  else s

/-- `setRandomBlink(minOff, maxOff, minOn, maxOn)`: commits all four iff all positive. -/
def setRandomBlink (s : LedDef)
    (minOffDuration maxOffDuration minOnDuration maxOnDuration : Nat) : LedDef :=
  if minOffDuration > 0 ∧ maxOffDuration > 0 ∧ minOnDuration > 0 ∧ maxOnDuration > 0 then
    { s with randMinOffDuration := minOffDuration
             randMaxOffDuration := maxOffDuration
             randMinOnDuration := minOnDuration
             randMaxOnDuration := maxOnDuration }
  else s

/-- `startRandomBlink()` at real time `t`.  `coin` is the `random(2)` draw and
`rng` the `random(min, max)` oracle. -/
def startRandomBlink (s : LedDef) (t : Nat) (coin : Bool) (rng : Nat → Nat → Nat) : LedDef :=
  if s.randMinOffDuration > 0 ∧ s.randMaxOffDuration > 0 ∧
     s.randMinOnDuration > 0 ∧ s.randMaxOnDuration > 0 then
    let s' :=
      if coin then
        { s.«on» with randOnDuration := rng s.randMinOnDuration s.randMaxOnDuration }
      else
        { s.off with randOffDuration := rng s.randMinOffDuration s.randMaxOffDuration }
    { s' with lastTime := millis t, displayMode := .BLINK_RANDOM }
  else s

/-- `setTimer(duration)`: commits iff positive. -/
def setTimer (s : LedDef) (duration : Nat) : LedDef :=
  if duration > 0 then { s with timerDuration := duration } else s

/-- `startTimer()` at real time `t`. -/
def startTimer (s : LedDef) (t : Nat) : LedDef :=
  if s.timerDuration > 0 then
    { s.«on» with lastTime := millis t, displayMode := .TIMED }
  else s

/-- `update()` at real time `t`.  Sums with `lastTime` are `unsigned long`
arithmetic, hence reduced `% ULONG_MOD`, exactly as the C promotes the
`unsigned short` durations and adds them to `lastTime`. -/
def update (s : LedDef) (t : Nat) (rng : Nat → Nat → Nat) : LedDef :=
  match s.displayMode with
  | .BLINK =>
    let now := millis t
    if s.ledIsOn then
      if now ≥ (s.lastTime + s.blinkOnDuration) % ULONG_MOD then
        { s.off with lastTime := now }
      else s
    else
      if now ≥ (s.lastTime + s.blinkOffDuration) % ULONG_MOD then
        { s.«on» with lastTime := now }
      else s
  | .BLINK_RANDOM =>
    let now := millis t
    if s.ledIsOn then
      if now ≥ (s.lastTime + s.randOnDuration) % ULONG_MOD then
        { s.off with lastTime := now,
                     randOffDuration := rng s.randMinOffDuration s.randMaxOffDuration }
      else s
    else
      if now ≥ (s.lastTime + s.randOffDuration) % ULONG_MOD then
        { s.«on» with lastTime := now
                      randOnDuration := rng s.randMinOnDuration s.randMaxOnDuration }
      else s
  | .TIMED =>
    if s.ledIsOn then
      if millis t ≥ (s.lastTime + s.timerDuration) % ULONG_MOD then
        { s.off with displayMode := .MANUAL }
      else s
    else s
  | .FADE => s
  | .MANUAL => s
  | .DISABLED => s

end LedDef

/-- The loop pattern shared by every Sparkle group operation:
`for (unsigned short i = 0; i < n; i++) leds[i] = f(leds[i]);` applied to the
first `n` entries of the array, leaving entries at index ≥ `n` untouched. -/
def applyUpTo (f : LedDef → LedDef) : Nat → List LedDef → List LedDef
  | 0, l => l
  | _ + 1, [] => []
  | n + 1, x :: xs => f x :: applyUpTo f n xs

/-- The `Sparkle` object: the LED array contents plus the stored member
count.  The count member is `unsigned char`. -/
structure Sparkle where
  leds : List LedDef
  count : Nat
deriving DecidableEq, Repr

/-- The `Sparkle` constructor: stores the array and its length; the length is
a `size_t` assigned to the `unsigned char` member `count`, so it is reduced
modulo 256. -/
def mkSparkle (ledList : List LedDef) : Sparkle :=
  { leds := ledList, count := ledList.length % 256 }

namespace Sparkle

/-- The LEDs the Sparkle object actually manages: the first `count` entries of
its array. -/
def members (s : Sparkle) : List LedDef := s.leds.take s.count

/-- `initPins()`: calls `initPin` on `leds[i]` for `i < count`. -/
def initPins (s : Sparkle) : Sparkle :=
  { s with leds := applyUpTo LedDef.initPin s.count s.leds }

/-- `allOff()`: calls `turnOff` on `leds[i]` for `i < count`. -/
def allOff (s : Sparkle) : Sparkle :=
  { s with leds := applyUpTo LedDef.turnOff s.count s.leds }

/-- `allOn()`: calls `turnOn` on `leds[i]` for `i < count`. -/
def allOn (s : Sparkle) : Sparkle :=
  { s with leds := applyUpTo LedDef.turnOn s.count s.leds }

/-- `turnOnAllColor(color)`: for `i < count`, turns `leds[i]` on iff its
color equals `color`. -/
def turnOnAllColor (s : Sparkle) (color : LedColor) : Sparkle :=
  { s with leds :=
      applyUpTo (fun d => if d.getColor = color then d.turnOn else d) s.count s.leds }

/-- `turnOffAllColor(color)`: for `i < count`, turns `leds[i]` off iff its
color equals `color`. -/
def turnOffAllColor (s : Sparkle) (color : LedColor) : Sparkle :=
  { s with leds :=
      applyUpTo (fun d => if d.getColor = color then d.turnOff else d) s.count s.leds }

/-- `update()`: calls `update` on `leds[i]` for `i < count`, all within the
same tick `t` of the injected clock and with the injected random oracle. -/
def update (s : Sparkle) (t : Nat) (rng : Nat → Nat → Nat) : Sparkle :=
  { s with leds := applyUpTo (fun d => d.update t rng) s.count s.leds }

end Sparkle

/-! Concrete scenario objects used by the closed instances below. -/

/-- A degenerate random oracle (always returns the lower bound); it satisfies
the Arduino `random(a, b) ∈ [a, b)` contract. -/
def rngFloor : Nat → Nat → Nat := fun a _ => a

/-- A freshly constructed red common-anode LED on pin 5. -/
def demoLed : LedDef := mkLedDef 5 .RED false false false

/-- A freshly constructed red LED on pin 1. -/
def redLed1 : LedDef := mkLedDef 1 .RED false false false

/-- A freshly constructed blue LED on pin 2. -/
def blueLed : LedDef := mkLedDef 2 .BLUE false false false

/-- A freshly constructed red common-cathode LED on pin 3. -/
def redLed2 : LedDef := mkLedDef 3 .RED true false false

/-- A freshly constructed LED on pin 4 whose color is the `ANY` enum value. -/
def anyLed : LedDef := mkLedDef 4 .ANY false false false

/-! ### Theorems -/

/-- The C1 failing state: blink (on 50 ms / off 30 ms) started at clock value
2^32 − 100, i.e. `lastTime` is 100 ms below the counter's wrap point. -/
def c1State : LedDef := (demoLed.setBlink 50 30).startBlink (ULONG_MOD - 100)

/-- C1 (evaluation at the failing input): with `lastTime = 2^32 − 100` and the
clock wrapped to `now = 10`, the true elapsed time is 110 ms ≥ the 50 ms
on-duration, yet `update` performs no phase transition, because it compares
`now` against the non-wrapped sum `lastTime + 50 = 2^32 − 50`.  The
duration-expiry check therefore does not survive counter wraparound. -/
theorem c1_wraparound_expiry_missed :
    c1State.displayMode = .BLINK ∧ c1State.ledIsOn = true ∧
    c1State.blinkOnDuration = 50 ∧ c1State.lastTime = ULONG_MOD - 100 ∧
    (millis 10 + ULONG_MOD - c1State.lastTime) % ULONG_MOD = 110 ∧
    c1State.update 10 rngFloor = c1State := by
  decide

/-- The C6 counterexample state: 100 ms timer started at clock value
2^32 − 50, so its window crosses the counter's wrap point. -/
def c6wrapLed : LedDef := (demoLed.setTimer 100).startTimer (ULONG_MOD - 50)

/-- C6 counterexample: a timer started 50 ms before the clock wrap is turned
off by the very next update, only 49 ms after start — the LED does not stay on
until 100 ms have elapsed, so the claim fails as stated (for start times near
the wrap point). -/
theorem c6_counterexample :
    c6wrapLed.ledIsOn = true ∧ c6wrapLed.displayMode = .TIMED ∧
    c6wrapLed.timerDuration = 100 ∧ c6wrapLed.lastTime = ULONG_MOD - 50 ∧
    (ULONG_MOD - 1) - (ULONG_MOD - 50) = 49 ∧ 49 < 100 ∧
    (c6wrapLed.update (ULONG_MOD - 1) rngFloor).ledIsOn = false ∧
    (c6wrapLed.update (ULONG_MOD - 1) rngFloor).displayMode = .MANUAL := by
  decide

/-- The state after `setTimer(100); startTimer()` at real time `t0`, starting
from a freshly constructed LED. -/
def timerStart (p : Nat) (c : LedColor) (cc pw b0 : Bool) (t0 : Nat) : LedDef :=
  ((mkLedDef p c cc pw b0).setTimer 100).startTimer t0

/-- C6 (amended): after `setTimer(100)` then `startTimer()` at `t0`, provided
the 100 ms window does not cross the clock wrap (`t0 + 100 < 2^32`) and update
times stay in the first clock epoch, the LED is on in mode `TIMED`; every
`update` strictly before `t0 + 100` changes nothing; the first `update` at or
after `t0 + 100` turns the LED off and demotes the mode to `MANUAL`; and any
further `update` of the resulting state changes nothing. -/
theorem c6_timed_one_shot (p : Nat) (c : LedColor) (cc pw b0 : Bool)
    (t0 t u : Nat) (rng rng2 : Nat → Nat → Nat)
    (hw : t0 + 100 < ULONG_MOD) (ht : t < ULONG_MOD) :
    (timerStart p c cc pw b0 t0).ledIsOn = true ∧
    (timerStart p c cc pw b0 t0).displayMode = .TIMED ∧
    (t < t0 + 100 →
      (timerStart p c cc pw b0 t0).update t rng = timerStart p c cc pw b0 t0) ∧
    (t0 + 100 ≤ t →
      ((timerStart p c cc pw b0 t0).update t rng).ledIsOn = false ∧
      ((timerStart p c cc pw b0 t0).update t rng).displayMode = .MANUAL ∧
      ((timerStart p c cc pw b0 t0).update t rng).update u rng2 =
        (timerStart p c cc pw b0 t0).update t rng) := by
  have hlt : t0 < ULONG_MOD := by omega
  have hts : timerStart p c cc pw b0 t0 =
      { pin := p, color := c, commonCathode := cc, pwm := pw, ledIsOn := true,
        displayMode := .TIMED, blinkOffDuration := 0, blinkOnDuration := 0,
        timerDuration := 100, randMinOffDuration := 0, randMaxOffDuration := 0,
        randMinOnDuration := 0, randMaxOnDuration := 0, randOffDuration := 0,
        randOnDuration := 0, lastTime := t0,
        pinLevel := some (if cc then .HIGH else .LOW), pinIsOutput := false } := by
    simp [timerStart, mkLedDef, LedDef.setTimer, LedDef.startTimer, LedDef.on, millis,
          Nat.mod_eq_of_lt hlt]
  rw [hts]
  have hmt : millis t = t := Nat.mod_eq_of_lt ht
  have hms : (t0 + 100) % ULONG_MOD = t0 + 100 := Nat.mod_eq_of_lt hw
  refine ⟨rfl, rfl, fun hbefore => ?_, fun hafter => ?_⟩
  · simp only [LedDef.update, hmt, hms]
    rw [if_pos trivial, if_neg (by omega)]
  · simp only [LedDef.update, hmt, hms]
    rw [if_pos trivial, if_pos (by omega)]
    exact ⟨rfl, rfl, rfl⟩

/-- C6 witness: the amended theorem instantiated at `t0 = 0`, with an update
inside the window (`t = 99`, no change) obtained from a second instantiation,
and the expiring update at `t = 100` followed by a no-op further update. -/
theorem c6_witness :
    (timerStart 5 .RED false false false 0).ledIsOn = true ∧
    ((timerStart 5 .RED false false false 0).update 99 rngFloor =
      timerStart 5 .RED false false false 0) ∧
    ((timerStart 5 .RED false false false 0).update 100 rngFloor).ledIsOn = false ∧
    ((timerStart 5 .RED false false false 0).update 100 rngFloor).displayMode = .MANUAL ∧
    (((timerStart 5 .RED false false false 0).update 100 rngFloor).update 777 rngFloor =
      (timerStart 5 .RED false false false 0).update 100 rngFloor) := by
  have h99 := c6_timed_one_shot 5 .RED false false false 0 99 777 rngFloor rngFloor
    (by decide) (by decide)
  have h100 := c6_timed_one_shot 5 .RED false false false 0 100 777 rngFloor rngFloor
    (by decide) (by decide)
  have hfire := h100.2.2.2 (by decide)
  exact ⟨h99.1, h99.2.2.1 (by decide), hfire.1, hfire.2.1, hfire.2.2⟩

/-- C3: each duration-setting call (`setBlink`, `setRandomBlink`, `setTimer`)
is atomic: if any required argument is 0 the whole `LedDef` is unchanged, and
if all arguments are strictly positive all of the supplied durations are
stored and nothing else changes. -/
theorem c3_set_calls_atomic (s : LedDef) (a b mo Mo mn Mn d : Nat) :
    ((a = 0 ∨ b = 0) → s.setBlink a b = s) ∧
    (0 < a → 0 < b →
      s.setBlink a b = { s with blinkOnDuration := a, blinkOffDuration := b }) ∧
    ((mo = 0 ∨ Mo = 0 ∨ mn = 0 ∨ Mn = 0) → s.setRandomBlink mo Mo mn Mn = s) ∧
    (0 < mo → 0 < Mo → 0 < mn → 0 < Mn →
      s.setRandomBlink mo Mo mn Mn =
        { s with randMinOffDuration := mo, randMaxOffDuration := Mo,
                 randMinOnDuration := mn, randMaxOnDuration := Mn }) ∧
    (d = 0 → s.setTimer d = s) ∧
    (0 < d → s.setTimer d = { s with timerDuration := d }) := by
  refine ⟨fun h => ?_, fun ha hb => ?_, fun h => ?_, fun h1 h2 h3 h4 => ?_,
          fun h => ?_, fun h => ?_⟩ <;>
    simp only [LedDef.setBlink, LedDef.setRandomBlink, LedDef.setTimer]
  · rw [if_neg]; omega
  · rw [if_pos]; omega
  · rw [if_neg]; omega
  · rw [if_pos]; omega
  · rw [if_neg]; omega
  · rw [if_pos]; omega

/-- C3 witness: concrete instances of the atomicity theorem, one with a zero
argument (no-op) and one with all-positive arguments (full commit). -/
theorem c3_witness :
    demoLed.setBlink 0 30 = demoLed ∧
    demoLed.setBlink 50 30 = { demoLed with blinkOnDuration := 50, blinkOffDuration := 30 } ∧
    demoLed.setRandomBlink 1 2 0 4 = demoLed ∧
    demoLed.setRandomBlink 1 2 3 4 =
      { demoLed with randMinOffDuration := 1, randMaxOffDuration := 2,
                     randMinOnDuration := 3, randMaxOnDuration := 4 } ∧
    demoLed.setTimer 0 = demoLed ∧
    demoLed.setTimer 7 = { demoLed with timerDuration := 7 } := by
  have hz := c3_set_calls_atomic demoLed 0 30 1 2 0 4 0
  have hp := c3_set_calls_atomic demoLed 50 30 1 2 3 4 7
  exact ⟨hz.1 (Or.inl rfl), hp.2.1 (by decide) (by decide),
         hz.2.2.1 (by simp), hp.2.2.2.1 (by decide) (by decide) (by decide) (by decide),
         hz.2.2.2.2.1 rfl, hp.2.2.2.2.2 (by decide)⟩

/-- C4: `startBlink`, `startRandomBlink` and `startTimer` leave the entire
`LedDef` state unchanged (in particular `displayMode` and `ledIsOn`) when
their mode's parameters are not all strictly positive. -/
theorem c4_start_gating (s : LedDef) (t : Nat) (coin : Bool) (rng : Nat → Nat → Nat) :
    (¬(0 < s.blinkOnDuration ∧ 0 < s.blinkOffDuration) → s.startBlink t = s) ∧
    (¬(0 < s.randMinOffDuration ∧ 0 < s.randMaxOffDuration ∧
       0 < s.randMinOnDuration ∧ 0 < s.randMaxOnDuration) →
      s.startRandomBlink t coin rng = s) ∧
    (s.timerDuration = 0 → s.startTimer t = s) := by
  refine ⟨fun h => ?_, fun h => ?_, fun h => ?_⟩
  · rw [LedDef.startBlink, if_neg h]
  · rw [LedDef.startRandomBlink, if_neg h]
  · rw [LedDef.startTimer, if_neg (by omega)]

/-- C4 witness: on a freshly constructed LED (all durations 0) every start
call is a no-op. -/
theorem c4_witness :
    demoLed.startBlink 11 = demoLed ∧
    demoLed.startRandomBlink 11 true rngFloor = demoLed ∧
    demoLed.startTimer 11 = demoLed := by
  have h := c4_start_gating demoLed 11 true rngFloor
  exact ⟨h.1 (by decide), h.2.1 (by decide), h.2.2 (by decide)⟩

/-- C5: `turnOn` sets `ledIsOn = true` and `displayMode = MANUAL`, `turnOff`
sets `ledIsOn = false` and `displayMode = MANUAL`, from every state,
unconditionally. -/
theorem c5_manual_override (s : LedDef) :
    s.turnOn.ledIsOn = true ∧ s.turnOn.displayMode = .MANUAL ∧
    s.turnOff.ledIsOn = false ∧ s.turnOff.displayMode = .MANUAL := by
  simp [LedDef.turnOn, LedDef.turnOff, LedDef.on, LedDef.off]

/-- C7: `turnOn` writes `HIGH` on a common-cathode LED and `LOW` on a
common-anode LED; `turnOff` writes the opposite level. -/
theorem c7_polarity (s : LedDef) :
    s.turnOn.pinLevel = some (if s.commonCathode then PinLevel.HIGH else PinLevel.LOW) ∧
    s.turnOff.pinLevel = some (if s.commonCathode then PinLevel.LOW else PinLevel.HIGH) := by
  simp [LedDef.turnOn, LedDef.turnOff, LedDef.on, LedDef.off]

/-- The group loop transforms the first `n` entries elementwise. -/
theorem applyUpTo_take (f : LedDef → LedDef) :
    ∀ (n : Nat) (l : List LedDef), (applyUpTo f n l).take n = (l.take n).map f := by
  intro n
  induction n with
  | zero => intro l; simp [applyUpTo]
  | succ n ih =>
    intro l
    cases l with
    | nil => simp [applyUpTo]
    | cons x xs => simp [applyUpTo, List.take_succ_cons, ih xs]

/-- The group loop leaves entries at index ≥ `n` untouched. -/
theorem applyUpTo_drop (f : LedDef → LedDef) :
    ∀ (n : Nat) (l : List LedDef), (applyUpTo f n l).drop n = l.drop n := by
  intro n
  induction n with
  | zero => intro l; simp [applyUpTo]
  | succ n ih =>
    intro l
    cases l with
    | nil => simp [applyUpTo]
    | cons x xs => simp [applyUpTo, List.drop_succ_cons, ih xs]

/-- Running the group loop over the whole list is an elementwise map. -/
theorem applyUpTo_full (f : LedDef → LedDef) :
    ∀ l : List LedDef, applyUpTo f l.length l = l.map f := by
  intro l
  induction l with
  | nil => simp [applyUpTo]
  | cons x xs ih => simp [applyUpTo, ih]

/-- C8: `turnOnAllColor` / `turnOffAllColor` turn on / off exactly the managed
(member) LEDs whose color equals the argument, leaving every non-matching
member and every entry beyond the member count untouched; `ANY` is matched
literally as just another color; zero matches is a no-op; over members of
colors {RED, BLUE, RED}, `turnOnAllColor RED` turns on exactly the two red
LEDs. -/
theorem c8_color_filter (s : Sparkle) (c : LedColor) :
    (s.turnOnAllColor c).count = s.count ∧
    (s.turnOnAllColor c).members =
      s.members.map (fun d => if d.getColor = c then d.turnOn else d) ∧
    (s.turnOnAllColor c).leds.drop s.count = s.leds.drop s.count ∧
    (s.turnOffAllColor c).count = s.count ∧
    (s.turnOffAllColor c).members =
      s.members.map (fun d => if d.getColor = c then d.turnOff else d) ∧
    (s.turnOffAllColor c).leds.drop s.count = s.leds.drop s.count ∧
    ((mkSparkle [redLed1, blueLed, redLed2]).turnOnAllColor .RED).leds
      = [redLed1.turnOn, blueLed, redLed2.turnOn] ∧
    ((mkSparkle [redLed1, blueLed, redLed2]).turnOffAllColor .RED).leds
      = [redLed1.turnOff, blueLed, redLed2.turnOff] ∧
    ((mkSparkle [anyLed, redLed1]).turnOnAllColor .RED).leds = [anyLed, redLed1.turnOn] ∧
    ((mkSparkle [anyLed, redLed1]).turnOnAllColor .ANY).leds = [anyLed.turnOn, redLed1] ∧
    ((mkSparkle [blueLed]).turnOnAllColor .RED).leds = [blueLed] := by
  refine ⟨rfl, ?_, ?_, rfl, ?_, ?_, by decide, by decide, by decide, by decide, by decide⟩
  · simp [Sparkle.turnOnAllColor, Sparkle.members, applyUpTo_take]
  · simp [Sparkle.turnOnAllColor, applyUpTo_drop]
  · simp [Sparkle.turnOffAllColor, Sparkle.members, applyUpTo_take]
  · simp [Sparkle.turnOffAllColor, applyUpTo_drop]

/-- A 256-LED array: one longer than the largest count an `unsigned char` can
hold. -/
def bigList : List LedDef := List.replicate 256 demoLed

set_option maxRecDepth 10000 in
/-- C10: the constructor stores `length % 256` as the member count; for lists
of at most 255 LEDs every group operation transforms exactly the `n` list
members elementwise in list order; and for the 256-LED list the stored count
is 0, so `allOn` visits no LED at all even though turning on each of the 256
LEDs would change them. -/
theorem c10_count_byte (l : List LedDef) (c : LedColor) (t : Nat)
    (rng : Nat → Nat → Nat) :
    (mkSparkle l).count = l.length % 256 ∧
    (l.length ≤ 255 →
      ((mkSparkle l).initPins.leds = l.map LedDef.initPin ∧
       (mkSparkle l).allOn.leds = l.map LedDef.turnOn ∧
       (mkSparkle l).allOff.leds = l.map LedDef.turnOff ∧
       ((mkSparkle l).turnOnAllColor c).leds =
         l.map (fun d => if d.getColor = c then d.turnOn else d) ∧
       ((mkSparkle l).turnOffAllColor c).leds =
         l.map (fun d => if d.getColor = c then d.turnOff else d) ∧
       ((mkSparkle l).update t rng).leds = l.map (fun d => d.update t rng))) ∧
    ((mkSparkle bigList).count = 0 ∧ bigList.length = 256 ∧
      (mkSparkle bigList).allOn.leds = bigList ∧
      bigList.map LedDef.turnOn ≠ bigList) := by
  refine ⟨rfl, fun hlen => ?_, by decide, by decide, by decide, by decide⟩
  have hcnt : l.length % 256 = l.length := Nat.mod_eq_of_lt (by omega)
  refine ⟨?_, ?_, ?_, ?_, ?_, ?_⟩ <;>
    simp [mkSparkle, Sparkle.initPins, Sparkle.allOn, Sparkle.allOff,
          Sparkle.turnOnAllColor, Sparkle.turnOffAllColor, Sparkle.update,
          hcnt, applyUpTo_full]

/-- C10 witness: the theorem instantiated at a concrete two-LED list, with the
length bound discharged. -/
theorem c10_witness :
    (mkSparkle [redLed1, blueLed]).count = [redLed1, blueLed].length % 256 ∧
    (mkSparkle [redLed1, blueLed]).allOn.leds = [redLed1, blueLed].map LedDef.turnOn := by
  have h := c10_count_byte [redLed1, blueLed] .RED 0 rngFloor
  exact ⟨h.1, (h.2.1 (by decide)).2.1⟩

/-- C9: with all four random-blink parameters committed, `startRandomBlink`
branches on the injected coin flip: heads turns the LED on and stores the
`random(minOn, maxOn)` draw as the current on-duration, tails turns it off and
stores the `random(minOff, maxOff)` draw as the current off-duration; both
branches record `lastTime = millis(now)` and set `mode = BLINK_RANDOM`.  Under
the Arduino contract that `random(a, b) ∈ [a, b)`, the stored duration lies in
the corresponding half-open parameter interval. -/
theorem c9_random_start (s : LedDef) (t : Nat) (rng : Nat → Nat → Nat)
    (h1 : 0 < s.randMinOffDuration) (h2 : 0 < s.randMaxOffDuration)
    (h3 : 0 < s.randMinOnDuration) (h4 : 0 < s.randMaxOnDuration)
    (hrng : ∀ a b : Nat, a < b → a ≤ rng a b ∧ rng a b < b)
    (hon : s.randMinOnDuration < s.randMaxOnDuration)
    (hoff : s.randMinOffDuration < s.randMaxOffDuration) :
    (s.startRandomBlink t true rng =
      { s.«on» with randOnDuration := rng s.randMinOnDuration s.randMaxOnDuration,
                    lastTime := millis t, displayMode := .BLINK_RANDOM }) ∧
    (s.startRandomBlink t true rng).ledIsOn = true ∧
    (s.randMinOnDuration ≤ (s.startRandomBlink t true rng).randOnDuration ∧
      (s.startRandomBlink t true rng).randOnDuration < s.randMaxOnDuration) ∧
    (s.startRandomBlink t false rng =
      { s.off with randOffDuration := rng s.randMinOffDuration s.randMaxOffDuration,
                   lastTime := millis t, displayMode := .BLINK_RANDOM }) ∧
    (s.startRandomBlink t false rng).ledIsOn = false ∧
    (s.randMinOffDuration ≤ (s.startRandomBlink t false rng).randOffDuration ∧
      (s.startRandomBlink t false rng).randOffDuration < s.randMaxOffDuration) := by
  have hcond : s.randMinOffDuration > 0 ∧ s.randMaxOffDuration > 0 ∧
      s.randMinOnDuration > 0 ∧ s.randMaxOnDuration > 0 := ⟨h1, h2, h3, h4⟩
  have htrue : s.startRandomBlink t true rng =
      { s.«on» with randOnDuration := rng s.randMinOnDuration s.randMaxOnDuration,
                    lastTime := millis t, displayMode := .BLINK_RANDOM } := by
    rw [LedDef.startRandomBlink, if_pos hcond]; rfl
  have hfalse : s.startRandomBlink t false rng =
      { s.off with randOffDuration := rng s.randMinOffDuration s.randMaxOffDuration,
                   lastTime := millis t, displayMode := .BLINK_RANDOM } := by
    rw [LedDef.startRandomBlink, if_pos hcond]; rfl
  refine ⟨htrue, ?_, ?_, hfalse, ?_, ?_⟩
  · rw [htrue]; rfl
  · rw [htrue]; exact hrng _ _ hon
  · rw [hfalse]; rfl
  · rw [hfalse]; exact hrng _ _ hoff

/-- C9 witness: the theorem instantiated on a LED with committed parameters
(minOff 2, maxOff 5, minOn 3, maxOn 9) and the lower-bound oracle. -/
theorem c9_witness :
    ((demoLed.setRandomBlink 2 5 3 9).startRandomBlink 7 true rngFloor).ledIsOn = true ∧
    ((demoLed.setRandomBlink 2 5 3 9).startRandomBlink 7 true rngFloor).displayMode
      = .BLINK_RANDOM ∧
    (3 ≤ ((demoLed.setRandomBlink 2 5 3 9).startRandomBlink 7 true rngFloor).randOnDuration ∧
      ((demoLed.setRandomBlink 2 5 3 9).startRandomBlink 7 true rngFloor).randOnDuration < 9) ∧
    ((demoLed.setRandomBlink 2 5 3 9).startRandomBlink 7 false rngFloor).ledIsOn = false := by
  have h := c9_random_start (demoLed.setRandomBlink 2 5 3 9) 7 rngFloor
    (by decide) (by decide) (by decide) (by decide)
    (fun a b hb => ⟨Nat.le_refl a, hb⟩) (by decide) (by decide)
  exact ⟨h.2.1, by rw [h.1], h.2.2.1, h.2.2.2.2.1⟩

/-- Blink (on 50 ms / off 30 ms) started at clock value 2^32 − 45, so the
first on-phase crosses the clock wrap point. -/
def c2wrapState : LedDef := (demoLed.setBlink 50 30).startBlink (ULONG_MOD - 45)

/-- The blink scenario of the claim run with `update` every 3 ms (a
granularity of at most 10 ms) from start time 0. -/
def blinkSim3 : Nat → LedDef
  | 0 => (demoLed.setBlink 50 30).startBlink 0
  | k + 1 => (blinkSim3 k).update (3 * (k + 1)) rngFloor

/-- C2 counterexample: the on/off windows are not exactly 50 ms / 30 ms for
every update granularity of at most 10 ms.  (i) With updates every 10 ms but a
start 45 ms before the clock wrap, the very next update (10 ms into the
on-phase) already turns the LED off, because the expiry sum wraps while `now`
has not.  (ii) With updates every 3 ms from time 0, the LED is still on at the
48 ms update and turns off only at the 51 ms update, an on-window of 51 ms,
not 50 ms. -/
theorem c2_counterexample :
    (c2wrapState.ledIsOn = true ∧ c2wrapState.blinkOnDuration = 50 ∧
      c2wrapState.lastTime = ULONG_MOD - 45 ∧
      (ULONG_MOD - 35) - (ULONG_MOD - 45) = 10 ∧
      (c2wrapState.update (ULONG_MOD - 35) rngFloor).ledIsOn = false) ∧
    ((blinkSim3 16).ledIsOn = true ∧ 3 * 16 = 48 ∧
      (blinkSim3 17).ledIsOn = false ∧ (blinkSim3 17).lastTime = 51) := by
  decide

/-- The blink scenario of the (amended) claim: fresh LED, `setBlink(50, 30)`,
`startBlink` at real time `t0`, then the k-th `update` at real time
`t0 + 10·k` (granularity 10 ms, which divides both durations). -/
def blinkSim (rng : Nat → Nat → Nat) (p : Nat) (c : LedColor) (cc pw b0 : Bool)
    (t0 : Nat) : Nat → LedDef
  | 0 => ((mkLedDef p c cc pw b0).setBlink 50 30).startBlink t0
  | k + 1 => (blinkSim rng p c cc pw b0 t0 k).update (t0 + 10 * (k + 1)) rng

/-- Closed form of the blink run: within each 80 ms cycle the LED is on for
the first 50 ms (5 update steps) and off for the remaining 30 ms (3 update
steps), and `lastTime` holds the start of the current phase. -/
def blinkExpected (p : Nat) (c : LedColor) (cc pw : Bool) (t0 k : Nat) : LedDef :=
  { pin := p, color := c, commonCathode := cc, pwm := pw,
    ledIsOn := decide (k % 8 < 5), displayMode := .BLINK,
    blinkOffDuration := 30, blinkOnDuration := 50, timerDuration := 0,
    randMinOffDuration := 0, randMaxOffDuration := 0, randMinOnDuration := 0,
    randMaxOnDuration := 0, randOffDuration := 0, randOnDuration := 0,
    lastTime := t0 + 80 * (k / 8) + (if k % 8 < 5 then 0 else 50),
    pinLevel := some (if k % 8 < 5 then (if cc then .HIGH else .LOW)
                      else (if cc then .LOW else .HIGH)),
    pinIsOutput := false }

/-- C2 (amended): with `update` called every 10 ms and as long as the clock
does not wrap during the run, the blink pattern follows the exact closed form:
on-phases last exactly 50 ms, off-phases exactly 30 ms, repeating, with phase
boundaries at `t0 + 80·q` and `t0 + 80·q + 50`. -/
theorem c2_blink_periodic (rng : Nat → Nat → Nat) (p : Nat) (c : LedColor)
    (cc pw b0 : Bool) (t0 k : Nat) (h : t0 + 10 * k + 80 < ULONG_MOD) :
    blinkSim rng p c cc pw b0 t0 k = blinkExpected p c cc pw t0 k := by
  induction k with
  | zero =>
    have ht0 : t0 < ULONG_MOD := by omega
    show ((mkLedDef p c cc pw b0).setBlink 50 30).startBlink t0 =
      blinkExpected p c cc pw t0 0
    simp [mkLedDef, LedDef.setBlink, LedDef.startBlink, LedDef.on, millis,
          blinkExpected, Nat.mod_eq_of_lt ht0]
  | succ k ih =>
    have hk : t0 + 10 * k + 80 < ULONG_MOD := by omega
    have hdm : k / 8 * 8 ≤ k := Nat.div_mul_le_self k 8
    have hm8 : k % 8 < 8 := Nat.mod_lt _ (by omega)
    have hnow : millis (t0 + 10 * (k + 1)) = t0 + 10 * (k + 1) :=
      Nat.mod_eq_of_lt (by omega)
    show (blinkSim rng p c cc pw b0 t0 k).update (t0 + 10 * (k + 1)) rng =
      blinkExpected p c cc pw t0 (k + 1)
    rw [ih hk]
    by_cases h5 : k % 8 < 5
    · by_cases h4 : k % 8 = 4
      · have e1 : (k + 1) % 8 = 5 := by omega
        have e2 : (k + 1) / 8 = k / 8 := by omega
        have econd : t0 + 10 * (k + 1) ≥ (t0 + 80 * (k / 8) + 0 + 50) % ULONG_MOD := by
          rw [Nat.mod_eq_of_lt (by omega)]; omega
        simp [LedDef.update, blinkExpected, LedDef.off, hnow, h5, e1, e2, econd]
        omega
      · have h5' : (k + 1) % 8 < 5 := by omega
        have e2 : (k + 1) / 8 = k / 8 := by omega
        have encond : ¬ t0 + 10 * (k + 1) ≥ (t0 + 80 * (k / 8) + 0 + 50) % ULONG_MOD := by
          rw [Nat.mod_eq_of_lt (by omega)]; omega
        simp [LedDef.update, blinkExpected, hnow, h5, h5', e2, encond]
    · by_cases h7 : k % 8 = 7
      · have e1 : (k + 1) % 8 = 0 := by omega
        have e2 : (k + 1) / 8 = k / 8 + 1 := by omega
        have econd : t0 + 10 * (k + 1) ≥ (t0 + 80 * (k / 8) + 50 + 30) % ULONG_MOD := by
          rw [Nat.mod_eq_of_lt (by omega)]; omega
        simp [LedDef.update, blinkExpected, LedDef.on, hnow, h5, e1, e2, econd]
        omega
      · have h5' : ¬ (k + 1) % 8 < 5 := by omega
        have e2 : (k + 1) / 8 = k / 8 := by omega
        have encond : ¬ t0 + 10 * (k + 1) ≥ (t0 + 80 * (k / 8) + 50 + 30) % ULONG_MOD := by
          rw [Nat.mod_eq_of_lt (by omega)]; omega
        simp [LedDef.update, blinkExpected, hnow, h5, h5', e2, encond]

/-- C2 witness: the amended theorem instantiated at start time 0 and step 13
(inside the second cycle), with the no-wrap bound discharged. -/
theorem c2_witness :
    blinkSim rngFloor 5 .RED false false false 0 13 =
      blinkExpected 5 .RED false false 0 13 :=
  c2_blink_periodic rngFloor 5 .RED false false false 0 13 (by decide)
